import Mathlib

/-!
Verification of the DASH→MoQ publisher core (`moq-pub/src/dash/publisher.rs`)
and the catalog model (`moq-catalog/src/lib.rs`).

Shallow embedding conventions:
* byte buffers are `List Nat` (each entry one byte; big-endian fields are
  composed exactly as the Rust code composes them via `bytes::Buf`);
* machine integers are `Nat` with explicit `% 2^w` at the points where the
  Rust arithmetic can wrap (u64 multiplication in release mode wraps);
* fallible Rust paths are explicit result constructors; a Rust `panic!`
  (from `expect`, a `bytes::Buf` out-of-bounds read, or division by zero)
  is modelled by a dedicated `panic` constructor, never by a default value;
* per-representation state: every `HashMap<RepID, _>` field of the Rust
  `Publisher` is keyed by the representation id and representations never
  touch one another's entries, so the embedding models the state of one
  fixed representation (plus the shared catalog, which is threaded through
  the same state record);
* transport handles (`GroupsWriter` / `GroupWriter`) are modelled by the
  sequence of groups appended and the bytes written into each: `write` is
  the only observable effect, and dropping the current group handle
  (`end_group`) moves it to a `closed` list.
-/

/-- Outcome of `next_atom` on a byte buffer.  `incomplete` is Rust's
`Ok(None)` (no bytes consumed), `error` is `Err(..)`, `atom a rest` is
`Ok(Some(a))` with `rest` the bytes left in the buffer, and `panic` is the
`bytes::Buf::get_u64` assertion failure (reading 8 bytes from a cursor
holding fewer than 8). -/
inductive NextAtomResult where
  | incomplete : NextAtomResult
  | error : NextAtomResult
  | panic : NextAtomResult
  | atom : List Nat → List Nat → NextAtomResult
  deriving DecidableEq, Repr

/-- Big-endian composition of bytes, exactly how successive `get_u8`-style
reads build up a big-endian integer. -/
def beBytes (l : List Nat) : Nat :=
  l.foldl (fun acc b => acc * 256 + b) 0

/-- Embeds `next_atom` from `publisher.rs` (lines 333–383).  The buffer is a
`BytesMut`, which is contiguous, so `buf.remaining() == buf.chunk().len()`
always holds and the "vectored Buf" error branch is unreachable; the peek
cursor sees the whole buffer.  `get_u32` twice consumes the 8 header bytes
from the peek cursor; in the `size == 1` branch `get_u64` panics when the
cursor holds fewer than 8 further bytes. -/
def next_atom (buf : List Nat) : NextAtomResult :=
  match buf with
  | b0 :: b1 :: b2 :: b3 :: _ :: _ :: _ :: _ :: rest =>
    let size := beBytes [b0, b1, b2, b3]
    if size = 0 then .error
    else if size = 1 then
      match rest with
      | e0 :: e1 :: e2 :: e3 :: e4 :: e5 :: e6 :: e7 :: _ =>
        let sizeExt := beBytes [e0, e1, e2, e3, e4, e5, e6, e7]
        if sizeExt < 16 then .error
        else if buf.length < sizeExt then .incomplete
        else .atom (buf.take sizeExt) (buf.drop sizeExt)
      | _ => .panic
    else if size ≤ 7 then .error
    else if buf.length < size then .incomplete
    else .atom (buf.take size) (buf.drop size)
  | _ => .incomplete

/-- A well-formed box: an 8-byte header whose 4-byte big-endian length
field gives the exact total length (≥ 8), or the extended form (length
field = 1) whose 8-byte extended length (≥ 16) gives the exact total
length. -/
def isWellFormedBox (box : List Nat) : Bool :=
  match box with
  | b0 :: b1 :: b2 :: b3 :: _ :: _ :: _ :: _ :: rest =>
    let size := beBytes [b0, b1, b2, b3]
    if size = 1 then
      match rest with
      | e0 :: e1 :: e2 :: e3 :: e4 :: e5 :: e6 :: e7 :: _ =>
        let sizeExt := beBytes [e0, e1, e2, e3, e4, e5, e6, e7]
        decide (16 ≤ sizeExt ∧ box.length = sizeExt)
      | _ => false
    else decide (8 ≤ size ∧ box.length = size)
  | _ => false

/-- The classification described by claim C5 as amended: identical to the
claim except that a buffer whose length field is 1 but which holds fewer
than 16 bytes makes the extended-length read panic instead of returning
"incomplete".  Written over positional reads of the buffer, to be compared
with `next_atom` above. -/
def next_atom_described (buf : List Nat) : NextAtomResult :=
  if buf.length < 8 then .incomplete
  else
    let lenField := beBytes (buf.take 4)
    if lenField = 0 then .error
    else if lenField = 1 then
      if buf.length < 16 then .panic
      else
        let ext := beBytes ((buf.drop 8).take 8)
        if ext < 16 then .error
        else if buf.length < ext then .incomplete
        else .atom (buf.take ext) (buf.drop ext)
    else if 2 ≤ lenField ∧ lenField ≤ 7 then .error
    else if buf.length < lenField then .incomplete
    else .atom (buf.take lenField) (buf.drop lenField)

/-- Claim C1: `next_atom` panics (it does not return "incomplete") on the
8-byte strict prefix of a well-formed extended-length box: the length
field 1 sends it into the `get_u64` read on a peek cursor that has 0 bytes
left. The full 16-byte box `[0,0,0,1, m,o,o,f, 0,0,0,0,0,0,0,16]` is
well-formed and the prefix is strict. -/
theorem next_atom_panics_on_extended_header_prefix :
    isWellFormedBox [0, 0, 0, 1, 109, 111, 111, 102, 0, 0, 0, 0, 0, 0, 0, 16] = true ∧
    List.take 8 [0, 0, 0, 1, 109, 111, 111, 102, 0, 0, 0, 0, 0, 0, 0, 16] =
      [0, 0, 0, 1, 109, 111, 111, 102] ∧
    next_atom [0, 0, 0, 1, 109, 111, 111, 102] = .panic := by
  refine ⟨by decide, by decide, by decide⟩

/-- Claim C5 (counterexample): a 10-byte strict prefix of a well-formed
16-byte extended-length box holds fewer bytes than the box size, yet
`next_atom` panics instead of returning "incomplete" as the claim states. -/
theorem next_atom_not_incomplete_on_partial_extended_length :
    isWellFormedBox [0, 0, 0, 1, 109, 100, 97, 116, 0, 0, 0, 0, 0, 0, 0, 16] = true ∧
    next_atom [0, 0, 0, 1, 109, 100, 97, 116, 0, 0] = .panic ∧
    next_atom [0, 0, 0, 1, 109, 100, 97, 116, 0, 0] ≠ .incomplete := by
  refine ⟨by decide, by decide, by decide⟩

/-- Claim C5 (amended): `next_atom` classifies the length field exactly as
described — 0 errors; 1 switches to the 8-byte extended length, which
must be ≥ 16 (else error) and then acts as the box size, provided at
least 16 bytes are buffered (with 8–15 bytes the extended-length read
panics); 2..7 error; otherwise the length field is the box size; fewer
than size bytes buffered returns "incomplete" consuming nothing, and a
full box is consumed exactly and returned byte-identical. -/
theorem next_atom_eq_described (buf : List Nat) :
    next_atom buf = next_atom_described buf := by
  match buf with
  | [] => rfl
  | [_] => rfl
  | [_, _] => rfl
  | [_, _, _] => rfl
  | [_, _, _, _] => rfl
  | [_, _, _, _, _] => rfl
  | [_, _, _, _, _, _] => rfl
  | [_, _, _, _, _, _, _] => rfl
  | b0 :: b1 :: b2 :: b3 :: t0 :: t1 :: t2 :: t3 :: rest =>
    show next_atom (b0 :: b1 :: b2 :: b3 :: t0 :: t1 :: t2 :: t3 :: rest) = _
    rw [next_atom_described]
    have hlen : ¬ (b0 :: b1 :: b2 :: b3 :: t0 :: t1 :: t2 :: t3 :: rest).length < 8 := by
      simp [List.length]
    rw [if_neg hlen]
    have htake : (b0 :: b1 :: b2 :: b3 :: t0 :: t1 :: t2 :: t3 :: rest).take 4 =
        [b0, b1, b2, b3] := rfl
    have hdrop : (b0 :: b1 :: b2 :: b3 :: t0 :: t1 :: t2 :: t3 :: rest).drop 8 = rest := rfl
    rw [htake, hdrop]
    by_cases h0 : beBytes [b0, b1, b2, b3] = 0
    · simp only [next_atom, h0, if_pos rfl, if_true]
    · by_cases h1 : beBytes [b0, b1, b2, b3] = 1
      · simp only [next_atom, h0, h1, if_false, if_true, if_neg, ite_true, ite_false]
        match rest with
        | e0 :: e1 :: e2 :: e3 :: e4 :: e5 :: e6 :: e7 :: rest2 =>
          have h16 : ¬ (b0 :: b1 :: b2 :: b3 :: t0 :: t1 :: t2 :: t3 ::
              e0 :: e1 :: e2 :: e3 :: e4 :: e5 :: e6 :: e7 :: rest2).length < 16 := by
            simp [List.length]
          rw [if_neg h16]
          have htk : (e0 :: e1 :: e2 :: e3 :: e4 :: e5 :: e6 :: e7 :: rest2).take 8 =
              [e0, e1, e2, e3, e4, e5, e6, e7] := rfl
          rw [htk]
        | [] => simp [List.length]
        | [_] => simp [List.length]
        | [_, _] => simp [List.length]
        | [_, _, _] => simp [List.length]
        | [_, _, _, _] => simp [List.length]
        | [_, _, _, _, _] => simp [List.length]
        | [_, _, _, _, _, _] => simp [List.length]
        | [_, _, _, _, _, _, _] => simp [List.length]
      · by_cases h7 : beBytes [b0, b1, b2, b3] ≤ 7
        · have h27 : 2 ≤ beBytes [b0, b1, b2, b3] ∧ beBytes [b0, b1, b2, b3] ≤ 7 := by
            omega
          simp only [next_atom, h0, h1, h7, h27, if_false, if_true, ite_true, ite_false,
            if_pos, and_self]
        · simp only [next_atom, h0, h1, h7, if_false, ite_false]
          simp

/-! ## mp4 box structures (the fields the publisher reads) -/

/-- Embeds `mp4::TfdtBox` (track fragment decode time): `base_media_decode_time`
is a u64. -/
structure TfdtBox where
  base_media_decode_time : Nat
  deriving DecidableEq, Repr

/-- Embeds `mp4::TfhdBox` (track fragment header), the fields read by the
publisher. -/
structure TfhdBox where
  track_id : Nat
  default_sample_flags : Option Nat
  deriving DecidableEq, Repr

/-- Embeds `mp4::TrunBox` (track run): a `sample_count` and, optionally,
per-sample flags and a first-sample-flags override (all u32). -/
structure TrunBox where
  sample_count : Nat
  sample_flags : List Nat
  first_sample_flags : Option Nat
  deriving DecidableEq, Repr

/-- Embeds `mp4::TrafBox` (track fragment). -/
structure TrafBox where
  tfhd : TfhdBox
  tfdt : Option TfdtBox
  trun : Option TrunBox
  deriving DecidableEq, Repr

/-- Embeds `mp4::MoofBox` (movie fragment header). -/
structure MoofBox where
  trafs : List TrafBox
  deriving DecidableEq, Repr

/-- Embeds `sample_timestamp` from `publisher.rs` (lines 518–520):
`moof.trafs.first()?.tfdt.as_ref()?.base_media_decode_time`. -/
def sample_timestamp (moof : MoofBox) : Option Nat :=
  match moof.trafs with
  | [] => none
  | traf :: _ =>
    match traf.tfdt with
    | none => none
    | some tfdt => some tfdt.base_media_decode_time

/-- The sample-flags keyframe test of `sample_keyframe` (lines 542–545):
`(flags >> 24) & 0x3 == 0x2` (depends on no other) and not
`(flags >> 16) & 0x1 == 0x1` (non-sync sample). -/
def flagsKeyframe (flags : Nat) : Bool :=
  ((flags >>> 24) % 4 == 2) && !((flags >>> 16) % 2 == 1)

/-- The `match trun.sample_flags.get(i)` of `sample_keyframe` (lines
532–535): the sample's own flags when present, else the default flags. -/
def trunSampleFlags (trun : TrunBox) (default_flags i : Nat) : Nat :=
  match trun.sample_flags.get? i with
  | some f => f
  | none => default_flags

/-- The flags used for sample `i` after the `i == 0 &&
first_sample_flags.is_some()` override of lines 537–539. -/
def trunFlags (trun : TrunBox) (default_flags i : Nat) : Nat :=
  if i == 0 && trun.first_sample_flags.isSome then
    trun.first_sample_flags.getD (trunSampleFlags trun default_flags i)
  else trunSampleFlags trun default_flags i

/-- The inner `for i in 0..trun.sample_count` loop of `sample_keyframe`
(lines 531–548): the loop returns on the first qualifying sample.
`left` counts the samples still to visit. -/
def trunLoop (trun : TrunBox) (default_flags : Nat) : Nat → Nat → Bool
  | _, 0 => false
  | i, left + 1 =>
    if flagsKeyframe (trunFlags trun default_flags i) then true
    else trunLoop trun default_flags (i + 1) left

/-- Embeds `sample_keyframe` from `publisher.rs` (lines 522–552), as a recursion
over the `trafs` list: per traf, the default flags are
`tfhd.default_sample_flags.unwrap_or_default()` (0 when absent); a traf
without a `trun` makes the whole function return `false` immediately; a
qualifying sample returns `true`; otherwise the next traf is visited. -/
def sample_keyframe : List TrafBox → Bool
  | [] => false
  | traf :: rest =>
    let default_flags := (traf.tfhd.default_sample_flags).getD 0
    match traf.trun with
    | none => false
    | some trun =>
      if trunLoop trun default_flags 0 trun.sample_count then true
      else sample_keyframe rest

/-- The effective flags of sample `i`, in the precedence the claim states:
`first_sample_flags` if present and `i` is the first sample, else the
sample's own flags if present, else the default flags. -/
def effectiveFlagsDescribed (trun : TrunBox) (default_flags i : Nat) : Bool × Nat :=
  match i, trun.first_sample_flags with
  | 0, some f => (true, f)
  | _, _ => (false, trun.sample_flags.getD i default_flags)

/-- The keyframe classification described by claim C2: a sample qualifies
iff `(flags >> 24) & 0x3 = 2` and not `(flags >> 16) & 0x1 = 1` on its
effective flags, and the fragment is a keyframe iff at least one of the
`sample_count` samples qualifies (no samples when the track run is
absent). -/
def sampleKeyframeDescribed (moof : MoofBox) : Bool :=
  moof.trafs.any fun traf =>
    match traf.trun with
    | none => false
    | some trun =>
      (List.range trun.sample_count).any fun i =>
        let flags := (effectiveFlagsDescribed trun ((traf.tfhd.default_sample_flags).getD 0) i).2
        decide ((flags >>> 24) % 4 = 2 ∧ ¬ (flags >>> 16) % 2 = 1)

theorem flagsKeyframe_eq_described (flags : Nat) :
    flagsKeyframe flags = decide ((flags >>> 24) % 4 = 2 ∧ ¬ (flags >>> 16) % 2 = 1) := by
  unfold flagsKeyframe
  rw [Bool.eq_iff_iff]
  simp

theorem trunSampleFlags_eq_getD (trun : TrunBox) (dflt i : Nat) :
    trunSampleFlags trun dflt i = trun.sample_flags.getD i dflt := by
  unfold trunSampleFlags
  cases h : trun.sample_flags.get? i with
  | none => simp [List.getD_eq_getElem?_getD, ← List.get?_eq_getElem?, h]
  | some f => simp [List.getD_eq_getElem?_getD, ← List.get?_eq_getElem?, h]

theorem trunLoop_eq_any (trun : TrunBox) (dflt : Nat) (left i : Nat) :
    trunLoop trun dflt i left =
      (List.range' i left).any fun j => flagsKeyframe (trunFlags trun dflt j) := by
  induction left generalizing i with
  | zero => simp [trunLoop]
  | succ n ih =>
    rw [List.range'_succ]
    simp only [List.any_cons, trunLoop]
    rw [ih (i + 1)]
    by_cases hk : flagsKeyframe (trunFlags trun dflt i) = true
    · simp [hk]
    · simp [hk]

theorem trunFlags_eq_described (trun : TrunBox) (dflt j : Nat) :
    trunFlags trun dflt j = (effectiveFlagsDescribed trun dflt j).2 := by
  unfold trunFlags
  match j, hf : trun.first_sample_flags with
  | 0, some f => simp [effectiveFlagsDescribed, hf]
  | 0, none => simp [effectiveFlagsDescribed, hf, trunSampleFlags_eq_getD]
  | j + 1, some f => simp [effectiveFlagsDescribed, hf, trunSampleFlags_eq_getD]
  | j + 1, none => simp [effectiveFlagsDescribed, hf, trunSampleFlags_eq_getD]

/-- Claim C2: for a decoded fragment-header box (exactly one track
fragment, as `Fragment::new` enforces), `sample_keyframe` computes exactly
the classification the claim describes: per-sample effective flags with
the first-sample-flags / own-flags / default-flags precedence, the
depends-on-none-and-sync bit test, and "any sample qualifies". -/
theorem sample_keyframe_eq_described (moof : MoofBox)
    (h : moof.trafs.length = 1) :
    sample_keyframe moof.trafs = sampleKeyframeDescribed moof := by
  match moof, h with
  | ⟨[traf]⟩, _ =>
    simp only [sampleKeyframeDescribed, List.any_cons, List.any_nil, Bool.or_false]
    show sample_keyframe [traf] = _
    cases htr : traf.trun with
    | none => simp [sample_keyframe, htr]
    | some trun =>
      simp only [sample_keyframe, htr]
      rw [trunLoop_eq_any, ← List.range_eq_range']
      have hfun : (fun j => flagsKeyframe (trunFlags trun
            ((traf.tfhd.default_sample_flags).getD 0) j)) =
          (fun i => let flags :=
              (effectiveFlagsDescribed trun ((traf.tfhd.default_sample_flags).getD 0) i).2
            decide ((flags >>> 24) % 4 = 2 ∧ ¬ (flags >>> 16) % 2 = 1)) := by
        funext j
        rw [flagsKeyframe_eq_described, trunFlags_eq_described]
      rw [hfun]
      cases hany : ((List.range trun.sample_count).any fun i =>
          let flags :=
            (effectiveFlagsDescribed trun ((traf.tfhd.default_sample_flags).getD 0) i).2
          decide ((flags >>> 24) % 4 = 2 ∧ ¬ (flags >>> 16) % 2 = 1)) with
      | true => simp
      | false => simp

/-- Witness for C2: the precedence case the spec highlights — default
flags mark non-keyframe (non-sync bit set), per-sample flags absent,
`first_sample_flags` encodes depends-on-none and sync, one sample — is
classified keyframe, and the code agrees with the description. -/
theorem sample_keyframe_eq_described_witness :
    (MoofBox.mk [⟨⟨1, some 0x1010000⟩, some ⟨0⟩,
        some ⟨1, [], some 0x2000000⟩⟩]).trafs.length = 1 ∧
    sample_keyframe (MoofBox.mk [⟨⟨1, some 0x1010000⟩, some ⟨0⟩,
        some ⟨1, [], some 0x2000000⟩⟩]).trafs = true ∧
    sampleKeyframeDescribed (MoofBox.mk [⟨⟨1, some 0x1010000⟩, some ⟨0⟩,
        some ⟨1, [], some 0x2000000⟩⟩]) = true := by
  refine ⟨rfl, by decide, ?_⟩
  rw [← sample_keyframe_eq_described (MoofBox.mk [⟨⟨1, some 0x1010000⟩, some ⟨0⟩,
        some ⟨1, [], some 0x2000000⟩⟩]) rfl]
  decide

/-! ## Track publisher state (`Track` in publisher.rs, lines 385–473)

A `GroupWriter`'s only observable effect is the sequence of byte writes
into it, and a `GroupsWriter`'s is the sequence of groups appended with
their priorities; dropping the current `GroupWriter` handle is what closes
a group, so `end_group` moves the open group to the `closed` list. -/

/-- Embeds `mp4::TrackType`, produced from the handler four-cc. -/
inductive TrackType where
  | video | audio | subtitle
  deriving DecidableEq, Repr

/-- One transport group: the priority it was appended with and the bytes
written into it, in order. -/
structure GroupState where
  priority : Nat
  writes : List (List Nat)
  deriving DecidableEq, Repr

/-- The `Track` struct: its `GroupsWriter` is observed as the list of
closed groups plus the currently open one. -/
structure TrackState where
  timescale : Nat
  handler : TrackType
  closed : List GroupState
  current : Option GroupState
  deriving DecidableEq, Repr

/-- The decoded `Fragment` struct (lines 475–484). -/
structure Fragment where
  track : Nat
  timestamp : Nat
  keyframe : Bool
  deriving DecidableEq, Repr

/-- Outcome of `Fragment::new`: `error` is the "multiple tracks per moof
atom" error; `panic` is the `expect("couldn't find timestamp")` on a moof
whose track fragment has no tfdt box. -/
inductive FragmentResult where
  | ok : Fragment → FragmentResult
  | error : FragmentResult
  | panic : FragmentResult
  deriving DecidableEq, Repr

/-- Embeds `Fragment::new` (lines 487–510). -/
def Fragment.new (moof : MoofBox) : FragmentResult :=
  match moof.trafs with
  | [traf] =>
    match sample_timestamp moof with
    | none => .panic
    | some timestamp =>
      .ok { track := traf.tfhd.track_id, timestamp := timestamp,
            keyframe := sample_keyframe moof.trafs }
  | _ => .error

/-- Embeds `Fragment::timestamp(timescale).as_millis()` (lines 513–515):
`Duration::from_millis(1000 * self.timestamp / timescale)`.  The u64
multiplication wraps in release mode, hence the `% 2^64`; the division by
a zero timescale would panic and is excluded separately in
`Track.header`. -/
def timestamp_ms (timestamp timescale : Nat) : Nat :=
  1000 * timestamp % 2 ^ 64 / timescale

/-- The priority a new group is appended with (lines 423–437):
`u32::MAX - timestamp` for the millisecond timestamp (which at this point
fits in a u32, so the `checked_sub` never fails). -/
def groupPriority (ms : Nat) : Nat :=
  2 ^ 32 - 1 - ms

/-- Outcome of `Track::header`: `error` is the failed
`u128 -> u32` conversion of a too-large millisecond timestamp; `panic` is
the division by a zero timescale. -/
inductive HeaderResult where
  | ok : TrackState → HeaderResult
  | error : HeaderResult
  | panic : HeaderResult
  deriving DecidableEq, Repr

/-- Embeds `Track::header` (lines 409–455): append to the open group if there is
one; otherwise compute the millisecond timestamp (error if it exceeds
`u32::MAX`), append a new group at `u32::MAX - timestamp` and write the
raw fragment-header bytes as its first object. -/
def Track.header (t : TrackState) (raw : List Nat) (fragment : Fragment) : HeaderResult :=
  match t.current with
  | some current =>
    .ok { t with current := some { current with writes := current.writes ++ [raw] } }
  | none =>
    if t.timescale = 0 then .panic
    else
      let ms := timestamp_ms fragment.timestamp t.timescale
      if 2 ^ 32 ≤ ms then .error
      else .ok { t with current := some { priority := groupPriority ms, writes := [raw] } }

/-- Embeds `Track::data` (lines 457–468): append to the open group; `none` is the
"missing current fragment" error. -/
def Track.data (t : TrackState) (raw : List Nat) : Option TrackState :=
  match t.current with
  | none => none
  | some segment =>
    some { t with current := some { segment with writes := segment.writes ++ [raw] } }

/-- Embeds `Track::end_group` (lines 470–473): drop the handle of the open group,
which closes it. -/
def Track.end_group (t : TrackState) : TrackState :=
  match t.current with
  | none => t
  | some g => { t with closed := t.closed ++ [g], current := none }

/-! ## moov structures (the fields `Publisher::setup` reads) -/

/-- Embeds `mp4::TkhdBox`, the field read by setup. -/
structure TkhdBox where
  track_id : Nat
  deriving DecidableEq, Repr

/-- Embeds `mp4::MdhdBox`: `timescale` is a u32. -/
structure MdhdBox where
  timescale : Nat
  deriving DecidableEq, Repr

/-- The handler four-cc of `mp4::HdlrBox`, as far as
`TryInto<mp4::TrackType>` distinguishes it: `vide`, `soun`, `sbtl`
convert; anything else fails. -/
inductive HandlerType where
  | vide | soun | sbtl | other
  deriving DecidableEq, Repr

/-- Embeds `TryFrom<&FourCC> for mp4::TrackType`. -/
def handlerTrackType : HandlerType → Option TrackType
  | .vide => some .video
  | .soun => some .audio
  | .sbtl => some .subtitle
  | .other => none

/-- Embeds `mp4::AvcCBox`, the fields read by setup. -/
structure AvccBox where
  avc_profile_indication : Nat
  profile_compatibility : Nat
  avc_level_indication : Nat
  deriving DecidableEq, Repr

/-- Embeds `mp4::Avc1Box`, the fields read by setup. -/
structure Avc1Box where
  width : Nat
  height : Nat
  avcc : AvccBox
  deriving DecidableEq, Repr

/-- Embeds `es_desc.dec_config` of `mp4::EsdsBox`, the fields read by setup. -/
structure DecConfig where
  object_type_indication : Nat
  profile : Nat
  max_bitrate : Nat
  avg_bitrate : Nat
  deriving DecidableEq, Repr

/-- Embeds `mp4::Mp4aBox`, the fields read by setup (`samplerate.value()` is the
integer part of the fixed-point sample rate). -/
structure Mp4aBox where
  samplerate : Nat
  esds : Option DecConfig
  deriving DecidableEq, Repr

/-- Embeds `mp4::StsdBox`: which codec-specific sample entry is present.  The
hev1 and vp09 entries are only ever tested for presence. -/
structure StsdBox where
  avc1 : Option Avc1Box
  hev1 : Bool
  mp4a : Option Mp4aBox
  vp09 : Bool
  deriving DecidableEq, Repr

structure StblBox where
  stsd : StsdBox
  deriving DecidableEq, Repr

structure MinfBox where
  stbl : StblBox
  deriving DecidableEq, Repr

structure MdiaBox where
  mdhd : MdhdBox
  hdlr : HandlerType
  minf : MinfBox
  deriving DecidableEq, Repr

structure TrakBox where
  tkhd : TkhdBox
  mdia : MdiaBox
  deriving DecidableEq, Repr

/-- Embeds `mp4::MoovBox`, the fields read by setup. -/
structure MoovBox where
  traks : List TrakBox
  deriving DecidableEq, Repr

/-- Embeds `track_timescale` (lines 555–563): find the trak with the given id;
`none` stands for the `expect("failed to find trak")` panic (unreachable
from setup, which passes the id of the single trak itself). -/
def track_timescale (moov : MoovBox) (track_id : Nat) : Option Nat :=
  (moov.traks.find? fun trak => trak.tkhd.track_id == track_id).map
    fun trak => trak.mdia.mdhd.timescale

/-! ## Settings (`settings.rs`), the fields setup reads -/

structure AudioSetting where
  name : String
  sampling_rate : Nat
  bitrate : Nat
  deriving DecidableEq, Repr

structure VideoSetting where
  name : String
  resolution : String
  bitrate : Nat
  max_rate : Nat
  buffer_size : Nat
  deriving DecidableEq, Repr

/-- Embeds `settings::Setting`, what `settings.get_rep(rep_id)` yields. -/
inductive Setting where
  | audio : AudioSetting → Setting
  | video : VideoSetting → Setting
  deriving DecidableEq, Repr

/-- The `track_name` extraction of `Publisher::setup` (lines 191–194). -/
def Setting.name : Setting → String
  | .audio a => a.name
  | .video v => v.name

/-! ## Catalog model (`moq-catalog/src/lib.rs`), the fields the publisher
touches.  The constant version/format strings are omitted; `encode()` is
serde serialization of the snapshot, abstracted to the snapshot value
itself (serialization is injective on these fields). -/

/-- The codec tag built for the descriptor: from
profile/constraint/level for avc1, from object-type/profile for mp4a
(the rfc6381 string formatting is abstracted to its inputs). -/
inductive CodecTag where
  | avc1 : Nat → Nat → Nat → CodecTag
  | mp4a : Nat → Nat → CodecTag
  deriving DecidableEq, Repr

/-- Embeds `moq_catalog::SelectionParams`, the fields the publisher sets. -/
structure SelectionParams where
  codec : Option CodecTag
  mime_type : Option String
  width : Option Nat
  height : Option Nat
  bitrate : Option Nat
  sample_rate : Option Nat
  deriving DecidableEq, Repr

def SelectionParams.new : SelectionParams :=
  { codec := none, mime_type := none, width := none, height := none,
    bitrate := none, sample_rate := none }

inductive Packaging where
  | cmaf | loc
  deriving DecidableEq, Repr

/-- Embeds `moq_catalog::CommonStructFields`, the fields the publisher sets
(`name_space` is the `namespace` field; that word is reserved here). -/
structure CommonStructFields where
  name : String
  packaging : Packaging
  name_space : Option String
  label : Option String
  alt_group : Option Nat
  deriving DecidableEq, Repr

def CommonStructFields.new (name : String) (packaging : Packaging) : CommonStructFields :=
  { name := name, packaging := packaging, name_space := none, label := none,
    alt_group := none }

/-- Embeds `moq_catalog::Track`, the fields the publisher sets. -/
structure CatalogTrack where
  name : String
  packaging : Packaging
  label : Option String
  init_data : Option (List Nat)
  selection_params : Option SelectionParams
  deriving DecidableEq, Repr

def CatalogTrack.new (name : String) (packaging : Packaging) : CatalogTrack :=
  { name := name, packaging := packaging, label := none, init_data := none,
    selection_params := none }

/-- Embeds `moq_catalog::MoqCatalog`, the fields the publisher touches.
`catalogs` is never set by the publisher but guards `insert_track`. -/
structure MoqCatalog where
  supports_delta_updates : Option Bool
  common_track_fields : Option CommonStructFields
  tracks : Option (List CatalogTrack)
  catalogs : Option (List String)
  deriving DecidableEq, Repr

/-- Embeds `MoqCatalog::new()` / `Default`. -/
def MoqCatalog.new : MoqCatalog :=
  { supports_delta_updates := none, common_track_fields := none,
    tracks := none, catalogs := none }

def MoqCatalog.enable_delta_updates (c : MoqCatalog) : MoqCatalog :=
  { c with supports_delta_updates := some true }

def MoqCatalog.set_common_track_fields (c : MoqCatalog) (csf : CommonStructFields) : MoqCatalog :=
  { c with common_track_fields := some csf }

/-- Embeds `MoqCatalog::insert_track`: errors (`none`) when catalogs are already
present, else pushes the track. -/
def MoqCatalog.insert_track (c : MoqCatalog) (track : CatalogTrack) : Option MoqCatalog :=
  if c.catalogs.isSome then none
  else match c.tracks with
    | some tracks => some { c with tracks := some (tracks ++ [track]) }
    | none => some { c with tracks := some [track] }

/-- One group appended to the catalog track; each write is one encoded
whole snapshot. -/
structure CatalogGroup where
  priority : Nat
  writes : List MoqCatalog
  deriving DecidableEq, Repr

/-! ## Publisher state machine (`Publisher` in publisher.rs)

All `Publisher` maps are keyed by the representation id and no
representation touches another's entries, so the state below is the slice
of the publisher owned by one fixed representation, together with the
shared catalog snapshot and the catalog track it is published on.
`parse_atom` consumes one complete box already cut by `next_atom` and
classified by its header type tag (the `mp4::BoxHeader` read and the
`MoovBox`/`MoofBox` decodes are taken as given: the decoded structure
accompanies the raw bytes). -/

/-- The per-representation publisher state (fields of `Publisher`,
lines 15–29, restricted to one representation id). -/
structure PubState where
  ftyp : Option (List Nat)
  moov : Option MoovBox
  prft : Option (List Nat)
  track : Option TrackState
  catalog : MoqCatalog
  catalog_groups : List CatalogGroup
  deriving DecidableEq, Repr

/-- Embeds `dash::Error` as the publisher produces it: `crate` is
`Error::Crate(which, message)` and `missing` is `Error::Missing`. -/
inductive PubError where
  | crate : String → String → PubError
  | missing : PubError
  deriving DecidableEq, Repr

/-- Outcome of one `parse_atom` step.  The state after the step is
returned alongside, because mutations made before an error persist in the
Rust publisher (the error propagates out of `publish` but the publisher
object survives). -/
inductive StepResult where
  | ok : StepResult
  | error : PubError → StepResult
  | panic : StepResult
  deriving DecidableEq, Repr

/-- One complete box, classified by the type tag of its header the way
`parse_atom` dispatches on `header.name`; decoded payloads accompany the
raw bytes. -/
inductive Atom where
  | prft : List Nat → Atom
  | ftyp : List Nat → Atom
  | moov : MoovBox → List Nat → Atom
  | moof : MoofBox → List Nat → Atom
  | mdat : List Nat → Atom
  | other : Atom
  deriving DecidableEq, Repr

/-- The codec-specific descriptor derivation of `Publisher::setup`
(lines 229–284): avc1, then hev1, then mp4a, then vp09, then unknown. -/
def selectionParams (setting : Setting) (stsd : StsdBox) : Except PubError SelectionParams :=
  match stsd.avc1 with
  | some avc1 =>
    let codec := CodecTag.avc1 avc1.avcc.avc_profile_indication
      avc1.avcc.profile_compatibility avc1.avcc.avc_level_indication
    let bitrate := match setting with
      | .video v => v.bitrate
      | _ => 0
    .ok { SelectionParams.new with
          height := some avc1.height, width := some avc1.width,
          codec := some codec, bitrate := some bitrate,
          mime_type := some "video/mp4" }
  | none =>
    if stsd.hev1 then .error (.crate "pub" "HEVC not yet supported")
    else match stsd.mp4a with
    | some mp4a =>
      match mp4a.esds with
      | none => .error .missing
      | some desc =>
        let codec := CodecTag.mp4a desc.object_type_indication desc.profile
        let params := { SelectionParams.new with
          codec := some codec, sample_rate := some mp4a.samplerate,
          mime_type := some "audio/mp4" }
        let bitrate := max desc.max_bitrate desc.avg_bitrate
        .ok (if 0 < bitrate then { params with bitrate := some bitrate } else params)
    | none =>
      if stsd.vp09 then .error (.crate "pub" "VP9 not yet supported")
      else .error (.crate "pub" "unknown codec")

/-- Embeds `Publisher::setup` (lines 181–322).  Exactly one trak; settings must
be present; timescale and handler come from the single trak; the
transport track is created and inserted into `tracks` BEFORE the ftyp
bytes are checked; the init segment is ftyp ++ moov bytes; the descriptor
is derived and inserted into the shared snapshot; the whole snapshot is
encoded and written as a single object into a fresh group appended at
priority 0 on the catalog track.  `broadcast.create` and the transport
writes are the collaborator's side and taken to succeed (the broadcast is
open). -/
def Publisher.setup (settings : Option Setting) (st : PubState) (moov : MoovBox)
    (raw : List Nat) : StepResult × PubState :=
  match moov.traks with
  | [trak] =>
    match settings with
    | none => (.error .missing, st)
    | some setting =>
      let track_name := setting.name
      match track_timescale moov trak.tkhd.track_id with
      | none => (.panic, st)
      | some timescale =>
        match handlerTrackType trak.mdia.hdlr with
        | none => (.error (.crate "mp4" "cannot convert handler type"), st)
        | some handler =>
          let track : TrackState :=
            { timescale := timescale, handler := handler, closed := [], current := none }
          let st := { st with track := some track }
          match st.ftyp with
          | none => (.error (.crate "mp4" "missing ftyp for track"), st)
          | some ftypBytes =>
            let init := ftypBytes ++ raw
            let catalog_track := CatalogTrack.new track_name Packaging.cmaf
            match selectionParams setting trak.mdia.minf.stbl.stsd with
            | .error e => (.error e, st)
            | .ok params =>
              let catalog_track := { catalog_track with
                selection_params := some params, init_data := some init,
                label := some track_name }
              match st.catalog.insert_track catalog_track with
              | none => (.error (.crate "moq_catalog"
                  "cannot add tracks, because catalogs are already present"), st)
              | some catalog' =>
                let g : CatalogGroup := { priority := 0, writes := [catalog'] }
                let st := { st with catalog := catalog', catalog_groups := st.catalog_groups ++ [g] }
                (.ok, st)
  | _ => (.error (.crate "mp4" "multiple tracks in moov"), st)

/-- Embeds `Publisher::parse_atom` (lines 86–179), on one classified box. -/
def Publisher.parse_atom (settings : Option Setting) (st : PubState) (atom : Atom) :
    StepResult × PubState :=
  match atom with
  | .prft raw => (.ok, { st with prft := some raw })
  | .ftyp raw =>
    if st.ftyp.isSome then (.error (.crate "mp4" "multiple ftyp on track"), st)
    else (.ok, { st with ftyp := some raw })
  | .moov m raw =>
    if st.moov.isSome then (.error (.crate "mp4" "multiple moov on track"), st)
    else
      match Publisher.setup settings st m raw with
      | (.ok, st') => (.ok, { st' with moov := some m })
      | out => out
  | .moof m raw =>
    match Fragment.new m with
    | .panic => (.panic, st)
    | .error => (.error (.crate "mp4" "multiple tracks per moof atom"), st)
    | .ok fragment =>
      match st.track with
      | none => (.error .missing, st)
      | some track =>
        let track := if fragment.keyframe && (track.handler == TrackType.video)
          then Track.end_group track else track
        let st := { st with track := some track }
        match Track.header track raw fragment with
        | .panic => (.panic, st)
        | .error =>
          (.error (.crate "moq" "out of range integral type conversion attempted"), st)
        | .ok track' => (.ok, { st with track := some track' })
  | .mdat raw =>
    match st.track with
    | none => (.error .missing, st)
    | some track =>
      match st.prft with
      | some prft =>
        match Track.data track (raw ++ prft) with
        | none => (.error (.crate "moq" "missing current fragment"), st)
        | some track' => (.ok, { st with track := some track' })
      | none =>
        match Track.data track raw with
        | none => (.error (.crate "moq" "missing current fragment"), st)
        | some track' => (.ok, { st with track := some track' })
  | .other => (.ok, st)

/-- Embeds `Publisher::new` (lines 32–70): creates the catalog track, builds the
common track fields (empty name, CMAF packaging, alt-group 1, the "Dash
MoQ" label, the broadcast namespace) and ENABLES delta updates on the
fresh catalog. -/
def Publisher.new (name_space : String) : PubState :=
  let csf := { CommonStructFields.new "" Packaging.cmaf with
    alt_group := some 1, label := some "Dash MoQ", name_space := some name_space }
  { ftyp := none, moov := none, prft := none, track := none,
    catalog := (MoqCatalog.new.enable_delta_updates).set_common_track_fields csf,
    catalog_groups := [] }

/-! ## Claim theorems -/

/-- Claim C10 (counterexample): a complete, well-formed fragment-header
box with exactly one track fragment but no tfdt box drives
`Fragment::new` into `sample_timestamp(..) = None` followed by
`expect("couldn't find timestamp")`, i.e. a panic — not a value or a
typed error. -/
theorem fragment_new_panics_without_tfdt :
    Fragment.new ⟨[⟨⟨1, none⟩, none, none⟩]⟩ = .panic := by
  rfl

/-- Claim C10 (amended): on a fragment-header box with exactly one track
fragment, `Fragment::new` returns the decoded fragment (track id,
base-media-decode-time timestamp, keyframe flag) when the track fragment
HAS a tfdt box, and panics on the `expect` when it does not; the typed
error is returned exactly when the track-fragment count differs from
one. -/
theorem fragment_new_single_traf (moof : MoofBox) (traf : TrafBox)
    (h : moof.trafs = [traf]) :
    (∀ tfdt, traf.tfdt = some tfdt →
      Fragment.new moof = .ok ⟨traf.tfhd.track_id, tfdt.base_media_decode_time,
        sample_keyframe moof.trafs⟩) ∧
    (traf.tfdt = none → Fragment.new moof = .panic) := by
  cases moof with
  | mk trafs =>
    simp only [MoofBox.mk.injEq] at h ⊢
    subst h
    constructor
    · intro tfdt htfdt
      simp [Fragment.new, sample_timestamp, htfdt]
    · intro htfdt
      simp [Fragment.new, sample_timestamp, htfdt]

/-- Witness for C10's amended theorem at a concrete single-traf moof with
a tfdt box. -/
theorem fragment_new_single_traf_witness :
    Fragment.new ⟨[⟨⟨7, none⟩, some ⟨42⟩, none⟩]⟩ =
      .ok ⟨7, 42, sample_keyframe [⟨⟨7, none⟩, some ⟨42⟩, none⟩]⟩ :=
  (fragment_new_single_traf ⟨[⟨⟨7, none⟩, some ⟨42⟩, none⟩]⟩
    ⟨⟨7, none⟩, some ⟨42⟩, none⟩ rfl).1 ⟨42⟩ rfl

/-- Claim C4 (counterexample): on one representation with timescale 90000,
two fragments with timestamps 0 < 1 each open a new group (the first
group is ended in between, as a video keyframe would), yet both groups
are created with the SAME priority `2^32 - 1`: the integer millisecond
conversion maps both timestamps to 0 ms, so strictly decreasing
priorities fail. -/
theorem group_priority_not_strictly_decreasing :
    Track.header ⟨90000, .video, [], none⟩ [1] ⟨1, 0, true⟩ =
      .ok ⟨90000, .video, [], some ⟨2 ^ 32 - 1, [[1]]⟩⟩ ∧
    Track.header (Track.end_group ⟨90000, .video, [], some ⟨2 ^ 32 - 1, [[1]]⟩⟩)
        [2] ⟨1, 1, true⟩ =
      .ok ⟨90000, .video, [⟨2 ^ 32 - 1, [[1]]⟩], some ⟨2 ^ 32 - 1, [[2]]⟩⟩ ∧
    ¬ ((2 ^ 32 - 1 : Nat) > 2 ^ 32 - 1) := by
  refine ⟨by decide, by decide, by decide⟩

/-- Claim C4 (amended): for two fragments of the same representation with
timestamps `t1 < t2` (no u64 wrap), the priorities computed at group
creation satisfy `priority(t1) ≥ priority(t2)`, strictly whenever the
integer millisecond conversions differ (the division may collapse close
timestamps into equal priorities); and a group's priority is fixed at
creation: appending further objects to an open group (via `header` on an
open group or via `data`) never changes its priority. -/
theorem group_priority_monotone (t1 t2 timescale : Nat)
    (hts : 0 < timescale) (h12 : t1 < t2) (hwrap : 1000 * t2 < 2 ^ 64)
    (hm2 : timestamp_ms t2 timescale < 2 ^ 32) :
    groupPriority (timestamp_ms t2 timescale) ≤ groupPriority (timestamp_ms t1 timescale) ∧
    (timestamp_ms t1 timescale ≠ timestamp_ms t2 timescale →
      groupPriority (timestamp_ms t2 timescale) < groupPriority (timestamp_ms t1 timescale)) ∧
    (∀ (t : TrackState) (raw : List Nat) (g : GroupState) (t' : TrackState),
      t.current = some g → Track.data t raw = some t' →
      ∃ g', t'.current = some g' ∧ g'.priority = g.priority) ∧
    (∀ (t : TrackState) (raw : List Nat) (fragment : Fragment) (g : GroupState)
      (t' : TrackState),
      t.current = some g → Track.header t raw fragment = .ok t' →
      ∃ g', t'.current = some g' ∧ g'.priority = g.priority) := by
  have hw1 : 1000 * t1 < 2 ^ 64 :=
    lt_of_le_of_lt (Nat.mul_le_mul_left 1000 h12.le) hwrap
  have hle : timestamp_ms t1 timescale ≤ timestamp_ms t2 timescale := by
    unfold timestamp_ms
    rw [Nat.mod_eq_of_lt hw1, Nat.mod_eq_of_lt hwrap]
    exact Nat.div_le_div_right (Nat.mul_le_mul_left 1000 h12.le)
  refine ⟨?_, ?_, ?_, ?_⟩
  · unfold groupPriority
    omega
  · intro hne
    have hlt : timestamp_ms t1 timescale < timestamp_ms t2 timescale :=
      lt_of_le_of_ne hle hne
    unfold groupPriority
    omega
  · intro t raw g t' hcur hdata
    unfold Track.data at hdata
    rw [hcur] at hdata
    simp only [Option.some.injEq] at hdata
    subst hdata
    exact ⟨_, rfl, rfl⟩
  · intro t raw fragment g t' hcur hheader
    unfold Track.header at hheader
    rw [hcur] at hheader
    simp only [HeaderResult.ok.injEq] at hheader
    subst hheader
    exact ⟨_, rfl, rfl⟩

/-- Witness for C4's amended theorem at timescale 90000 and timestamps
0 < 90000 (one second apart): the later group's priority is no larger. -/
theorem group_priority_monotone_witness :
    groupPriority (timestamp_ms 90000 90000) ≤ groupPriority (timestamp_ms 0 90000) :=
  (group_priority_monotone 0 90000 90000 (by decide) (by decide)
    (by decide) (by decide)).1

/-- Claim C3: processing a fragment-header box whose fragment is
classified keyframe while a group is open closes the current group first
for a VIDEO representation — the raw header bytes never land in the group
being closed, they become the single first object of the fresh group —
while for an AUDIO representation the open group is never closed and the
header bytes are appended to it. -/
theorem keyframe_group_boundary (settings : Option Setting) (st : PubState)
    (track : TrackState) (g : GroupState) (m : MoofBox) (raw : List Nat)
    (fragment : Fragment)
    (hfrag : Fragment.new m = .ok fragment) (hkey : fragment.keyframe = true)
    (htrack : st.track = some track) (hcur : track.current = some g)
    (hts : track.timescale ≠ 0)
    (hms : timestamp_ms fragment.timestamp track.timescale < 2 ^ 32) :
    (track.handler = .video →
      Publisher.parse_atom settings st (.moof m raw) =
        (.ok, { st with track := some ⟨track.timescale, track.handler,
          track.closed ++ [g],
          some ⟨groupPriority (timestamp_ms fragment.timestamp track.timescale),
            [raw]⟩⟩ })) ∧
    (track.handler = .audio →
      Publisher.parse_atom settings st (.moof m raw) =
        (.ok, { st with track := some ⟨track.timescale, track.handler,
          track.closed, some ⟨g.priority, g.writes ++ [raw]⟩⟩ })) := by
  constructor
  · intro hh
    simp only [Publisher.parse_atom, hfrag, htrack, hkey, hh, beq_self_eq_true,
      Bool.and_self, if_true, Track.end_group, hcur, Track.header, hts,
      not_le.mpr hms, if_false, ite_true, ite_false, if_neg, not_false_iff]
  · intro hh
    have hne : (TrackType.audio == TrackType.video) = false := by decide
    simp only [Publisher.parse_atom, hfrag, htrack, hkey, hh, hne,
      Bool.and_false, Bool.false_eq_true, if_false, ite_false,
      Track.header, hcur]

/-- Witness for C3 at a concrete state: a video track with an open group
`⟨5, [[9]]⟩` receives a keyframe fragment header `[4]`; the open group is
closed untouched and `[4]` opens the fresh group. -/
theorem keyframe_group_boundary_witness :
    Publisher.parse_atom none
        ⟨none, none, none, some ⟨1000, .video, [], some ⟨5, [[9]]⟩⟩, MoqCatalog.new, []⟩
        (.moof ⟨[⟨⟨1, none⟩, some ⟨0⟩, some ⟨1, [], some 0x2000000⟩⟩]⟩ [4]) =
      (.ok, ⟨none, none, none, some ⟨1000, .video, [⟨5, [[9]]⟩],
        some ⟨groupPriority (timestamp_ms 0 1000), [[4]]⟩⟩, MoqCatalog.new, []⟩) :=
  (keyframe_group_boundary none
    ⟨none, none, none, some ⟨1000, .video, [], some ⟨5, [[9]]⟩⟩, MoqCatalog.new, []⟩
    ⟨1000, .video, [], some ⟨5, [[9]]⟩⟩ ⟨5, [[9]]⟩
    ⟨[⟨⟨1, none⟩, some ⟨0⟩, some ⟨1, [], some 0x2000000⟩⟩]⟩ [4] ⟨1, 0, true⟩
    (by decide) rfl rfl rfl (by decide) (by decide)).1 rfl

/-- Claim C8: a second type box or a second container-metadata box for a
representation that already holds one yields the duplicate-init error for
that representation, and the returned state is the input state unchanged:
the duplicate check precedes any decode, setup or mutation, so the stored
init bytes and decoded metadata are untouched. -/
theorem duplicate_init_rejected (settings : Option Setting) (st : PubState)
    (raw : List Nat) (m : MoovBox) :
    (st.ftyp.isSome = true →
      Publisher.parse_atom settings st (.ftyp raw) =
        (.error (.crate "mp4" "multiple ftyp on track"), st)) ∧
    (st.moov.isSome = true →
      Publisher.parse_atom settings st (.moov m raw) =
        (.error (.crate "mp4" "multiple moov on track"), st)) := by
  constructor
  · intro h
    simp only [Publisher.parse_atom, h, if_true, ite_true]
  · intro h
    simp only [Publisher.parse_atom, h, if_true, ite_true]

/-- Witness for C8 at a concrete state already holding ftyp bytes and a
decoded moov. -/
theorem duplicate_init_rejected_witness :
    Publisher.parse_atom none
        ⟨some [1], some ⟨[]⟩, none, none, MoqCatalog.new, []⟩ (.ftyp [2]) =
      (.error (.crate "mp4" "multiple ftyp on track"),
        ⟨some [1], some ⟨[]⟩, none, none, MoqCatalog.new, []⟩) ∧
    Publisher.parse_atom none
        ⟨some [1], some ⟨[]⟩, none, none, MoqCatalog.new, []⟩ (.moov ⟨[]⟩ [3]) =
      (.error (.crate "mp4" "multiple moov on track"),
        ⟨some [1], some ⟨[]⟩, none, none, MoqCatalog.new, []⟩) :=
  ⟨(duplicate_init_rejected none
      ⟨some [1], some ⟨[]⟩, none, none, MoqCatalog.new, []⟩ [2] ⟨[]⟩).1 rfl,
   (duplicate_init_rejected none
      ⟨some [1], some ⟨[]⟩, none, none, MoqCatalog.new, []⟩ [3] ⟨[]⟩).2 rfl⟩

/-- Claim C7: the pending producer-reference-time slot is NOT cleared when
a fragment-payload box consumes it — `parse_atom` reads it with
`HashMap::get`, not `remove` — so the same pending bytes are appended
after every subsequent payload.  Concretely: with pending prft bytes
`[7]`, payload `[1]` is written as `[1, 7]` and the slot still holds
`[7]`; the next payload `[2]` is written as `[2, 7]` — the same auxiliary
bytes land after two different payloads, and the bytes are appended
immediately after each payload's bytes. -/
theorem prft_slot_not_cleared :
    Publisher.parse_atom none
        ⟨none, none, some [7], some ⟨1000, .video, [], some ⟨0, []⟩⟩, MoqCatalog.new, []⟩
        (.mdat [1]) =
      (.ok, ⟨none, none, some [7],
        some ⟨1000, .video, [], some ⟨0, [[1, 7]]⟩⟩, MoqCatalog.new, []⟩) ∧
    Publisher.parse_atom none
        ⟨none, none, some [7], some ⟨1000, .video, [], some ⟨0, [[1, 7]]⟩⟩, MoqCatalog.new, []⟩
        (.mdat [2]) =
      (.ok, ⟨none, none, some [7],
        some ⟨1000, .video, [], some ⟨0, [[1, 7], [2, 7]]⟩⟩, MoqCatalog.new, []⟩) ∧
    Publisher.parse_atom none
        ⟨none, none, some [7], some ⟨1000, .video, [], some ⟨0, []⟩⟩, MoqCatalog.new, []⟩
        (.prft [8]) =
      (.ok, ⟨none, none, some [8],
        some ⟨1000, .video, [], some ⟨0, []⟩⟩, MoqCatalog.new, []⟩) := by
  refine ⟨by decide, by decide, by decide⟩

/-- A concrete single-trak avc1 video moov (timescale 90000), as a test
fixture. -/
def sampleVideoMoov : MoovBox :=
  ⟨[⟨⟨1⟩, ⟨⟨90000⟩, .vide, ⟨⟨⟨some ⟨1280, 720, ⟨66, 0, 31⟩⟩, false, none, false⟩⟩⟩⟩⟩]⟩

/-- The representation's externally supplied settings, as a test fixture. -/
def sampleVideoSetting : Setting := .video ⟨"v0", "1280x720", 3000, 3300, 6000⟩

/-- A concrete keyframe fragment-header box (track 1, timestamp 0,
first-sample-flags depend-on-none and sync), as a test fixture. -/
def sampleKeyMoof : MoofBox := ⟨[⟨⟨1, none⟩, some ⟨0⟩, some ⟨1, [], some 0x2000000⟩⟩]⟩

/-- Claim C9 (counterexample): when setup fails AFTER the transport track
was created and inserted (here: the container-metadata box arrives before
any type box, so setup errors with "missing ftyp for track" — but only
after `tracks.insert`), a following fragment-header box is NOT rejected:
it finds the track, succeeds, and its bytes are published into a fresh
group. -/
theorem moof_published_after_failed_setup :
    (Publisher.parse_atom (some sampleVideoSetting) (Publisher.new "ns")
        (.moov sampleVideoMoov [3])).1 =
      .error (.crate "mp4" "missing ftyp for track") ∧
    (Publisher.parse_atom (some sampleVideoSetting) (Publisher.new "ns")
        (.moov sampleVideoMoov [3])).2.track = some ⟨90000, .video, [], none⟩ ∧
    Publisher.parse_atom (some sampleVideoSetting)
        ((Publisher.parse_atom (some sampleVideoSetting) (Publisher.new "ns")
          (.moov sampleVideoMoov [3])).2) (.moof sampleKeyMoof [4]) =
      (.ok, { (Publisher.parse_atom (some sampleVideoSetting) (Publisher.new "ns")
          (.moov sampleVideoMoov [3])).2 with
        track := some ⟨90000, .video, [], some ⟨2 ^ 32 - 1, [[4]]⟩⟩ }) := by
  refine ⟨by decide, by decide, by decide⟩

/-- Claim C9 (amended): a fragment-header or fragment-payload box arriving
while no track exists for the representation (setup never ran, or failed
before the track was created) yields the fatal `Error::Missing`, with
nothing published and the state unchanged; and a fragment-payload box
arriving while no group is open on the representation's track yields the
fatal "missing current fragment" error.  (If setup failed after creating
the track — e.g. on a missing type box — later fragment boxes ARE
accepted and published.) -/
theorem fragment_requires_track_and_open_group (settings : Option Setting)
    (st : PubState) (m : MoofBox) (raw : List Nat) :
    (st.track = none → ∀ fragment, Fragment.new m = .ok fragment →
      Publisher.parse_atom settings st (.moof m raw) = (.error .missing, st)) ∧
    (st.track = none →
      Publisher.parse_atom settings st (.mdat raw) = (.error .missing, st)) ∧
    (∀ track, st.track = some track → track.current = none →
      Publisher.parse_atom settings st (.mdat raw) =
        (.error (.crate "moq" "missing current fragment"), st)) := by
  refine ⟨?_, ?_, ?_⟩
  · intro h fragment hfrag
    simp only [Publisher.parse_atom, hfrag, h]
  · intro h
    simp only [Publisher.parse_atom, h]
  · intro track h hcur
    cases hp : st.prft with
    | some p => simp only [Publisher.parse_atom, h, hp, Track.data, hcur]
    | none => simp only [Publisher.parse_atom, h, hp, Track.data, hcur]

/-- Witness for C9's amended theorem: a fragment-header box on a fresh
representation (no setup at all) errors with `Missing`. -/
theorem fragment_requires_track_and_open_group_witness :
    Publisher.parse_atom none ⟨none, none, none, none, MoqCatalog.new, []⟩
        (.moof sampleKeyMoof [4]) =
      (.error .missing, ⟨none, none, none, none, MoqCatalog.new, []⟩) :=
  (fragment_requires_track_and_open_group none
    ⟨none, none, none, none, MoqCatalog.new, []⟩ sampleKeyMoof [4]).1 rfl
    ⟨1, 0, true⟩ (by decide)

/-- Claim C6 (counterexample): the very first published catalog snapshot
carries `supportsDeltaUpdates = Some(true)` — `Publisher::new` calls
`enable_delta_updates()` — so the field is neither omitted nor false.
(The publish itself is, as claimed, a single object in a fresh group at
priority 0.) -/
theorem catalog_published_with_delta_updates_enabled :
    ((Publisher.parse_atom (some sampleVideoSetting)
        { Publisher.new "ns" with ftyp := some [9] }
        (.moov sampleVideoMoov [3])).1 = .ok) ∧
    ((Publisher.parse_atom (some sampleVideoSetting)
        { Publisher.new "ns" with ftyp := some [9] }
        (.moov sampleVideoMoov [3])).2.catalog_groups.map
      fun g => (g.priority, g.writes.map fun c => c.supports_delta_updates)) =
      [(0, [some true])] := by
  refine ⟨by decide, by decide⟩

theorem insert_track_delta (c : MoqCatalog) (t : CatalogTrack) (c' : MoqCatalog)
    (h : c.insert_track t = some c') :
    c'.supports_delta_updates = c.supports_delta_updates := by
  unfold MoqCatalog.insert_track at h
  split at h
  · simp at h
  · split at h
    · simp only [Option.some.injEq] at h
      subst h
      rfl
    · simp only [Option.some.injEq] at h
      subst h
      rfl

theorem setup_catalog_effect (settings : Option Setting) (st : PubState)
    (m : MoovBox) (raw : List Nat) :
    ((Publisher.setup settings st m raw).2.catalog.supports_delta_updates =
      st.catalog.supports_delta_updates) ∧
    ((Publisher.setup settings st m raw).1 = .ok →
      (Publisher.setup settings st m raw).2.catalog_groups =
        st.catalog_groups ++ [⟨0, [(Publisher.setup settings st m raw).2.catalog]⟩]) ∧
    ((Publisher.setup settings st m raw).1 ≠ .ok →
      (Publisher.setup settings st m raw).2.catalog_groups = st.catalog_groups) := by
  cases m with
  | mk traks =>
  match traks with
  | [] => exact ⟨rfl, fun h => absurd h (by simp [Publisher.setup]), fun _ => rfl⟩
  | _ :: _ :: _ => exact ⟨rfl, fun h => absurd h (by simp [Publisher.setup]), fun _ => rfl⟩
  | [trak] =>
    cases settings with
    | none => exact ⟨rfl, fun h => absurd h (by simp [Publisher.setup]), fun _ => rfl⟩
    | some setting =>
      cases htt : track_timescale ⟨[trak]⟩ trak.tkhd.track_id with
      | none => simp [Publisher.setup, htt]
      | some ts =>
        cases hht : handlerTrackType trak.mdia.hdlr with
        | none => simp [Publisher.setup, htt, hht]
        | some handler =>
          cases hf : st.ftyp with
          | none => simp [Publisher.setup, htt, hht, hf]
          | some fb =>
            cases hsp : selectionParams setting trak.mdia.minf.stbl.stsd with
            | error e => simp [Publisher.setup, htt, hht, hf, hsp]
            | ok params =>
              cases hc : st.catalog.catalogs with
              | some cs =>
                simp [Publisher.setup, MoqCatalog.insert_track, htt, hht, hf, hsp, hc]
              | none =>
                cases htk : st.catalog.tracks with
                | some ts2 =>
                  simp [Publisher.setup, MoqCatalog.insert_track, htt, hht, hf, hsp,
                    hc, htk]
                | none =>
                  simp [Publisher.setup, MoqCatalog.insert_track, htt, hht, hf, hsp,
                    hc, htk]

/-- Claim C6 (amended): delta updates are ENABLED — the snapshot built by
`Publisher::new` has `supportsDeltaUpdates = Some(true)` and no step ever
changes the flag — the catalog track is touched by nothing except setup
(each step either leaves it alone or appends exactly one fresh group at
priority 0 holding the whole re-encoded current snapshot as a single
object), and on EVERY successful setup (a container-metadata box step
that returns ok) that one priority-0 whole-snapshot group IS appended. -/
theorem catalog_delta_flag_and_republish (settings : Option Setting)
    (st : PubState) (atom : Atom) (name_space : String) :
    (Publisher.new name_space).catalog.supports_delta_updates = some true ∧
    (Publisher.parse_atom settings st atom).2.catalog.supports_delta_updates =
      st.catalog.supports_delta_updates ∧
    ((Publisher.parse_atom settings st atom).2.catalog_groups = st.catalog_groups ∨
      (Publisher.parse_atom settings st atom).2.catalog_groups =
        st.catalog_groups ++
          [⟨0, [(Publisher.parse_atom settings st atom).2.catalog]⟩]) ∧
    (∀ m raw st', Publisher.parse_atom settings st (.moov m raw) = (.ok, st') →
      st'.catalog_groups = st.catalog_groups ++ [⟨0, [st'.catalog]⟩]) := by
  have hD : ∀ m raw st', Publisher.parse_atom settings st (.moov m raw) = (.ok, st') →
      st'.catalog_groups = st.catalog_groups ++ [⟨0, [st'.catalog]⟩] := by
    intro m raw st' h
    by_cases hm : st.moov.isSome
    · simp [Publisher.parse_atom, hm] at h
    · have hsc := setup_catalog_effect settings st m raw
      cases hs : Publisher.setup settings st m raw with
      | mk r st0 =>
        rw [hs] at hsc
        simp only at hsc
        cases r with
        | ok =>
          simp only [Publisher.parse_atom, hm, hs, Bool.false_eq_true, if_false,
            ite_false, Prod.mk.injEq, true_and] at h
          rw [← h]
          exact hsc.2.1 rfl
        | error e =>
          simp [Publisher.parse_atom, hm, hs] at h
        | panic =>
          simp [Publisher.parse_atom, hm, hs] at h
  have hBC : (Publisher.parse_atom settings st atom).2.catalog.supports_delta_updates =
      st.catalog.supports_delta_updates ∧
      ((Publisher.parse_atom settings st atom).2.catalog_groups = st.catalog_groups ∨
        (Publisher.parse_atom settings st atom).2.catalog_groups =
          st.catalog_groups ++
            [⟨0, [(Publisher.parse_atom settings st atom).2.catalog]⟩]) := by
    cases atom with
    | prft raw => exact ⟨rfl, Or.inl rfl⟩
    | ftyp raw =>
      by_cases hf : st.ftyp.isSome
      · simp [Publisher.parse_atom, hf]
      · simp [Publisher.parse_atom, hf]
    | mdat raw =>
      cases htk : st.track with
      | none => simp [Publisher.parse_atom, htk]
      | some track =>
        cases hp : st.prft with
        | some p =>
          cases hd : Track.data track (raw ++ p) with
          | none => simp [Publisher.parse_atom, htk, hp, hd]
          | some track' => simp [Publisher.parse_atom, htk, hp, hd]
        | none =>
          cases hd : Track.data track raw with
          | none => simp [Publisher.parse_atom, htk, hp, hd]
          | some track' => simp [Publisher.parse_atom, htk, hp, hd]
    | other => exact ⟨rfl, Or.inl rfl⟩
    | moof m raw =>
      cases hfr : Fragment.new m with
      | panic => simp [Publisher.parse_atom, hfr]
      | error => simp [Publisher.parse_atom, hfr]
      | ok fragment =>
        cases htk : st.track with
        | none => simp [Publisher.parse_atom, hfr, htk]
        | some track =>
          cases hkv : fragment.keyframe && (track.handler == TrackType.video) with
          | true =>
            cases hh : Track.header (Track.end_group track) raw fragment with
            | panic => simp [Publisher.parse_atom, hfr, htk, hkv, hh]
            | error => simp [Publisher.parse_atom, hfr, htk, hkv, hh]
            | ok track' => simp [Publisher.parse_atom, hfr, htk, hkv, hh]
          | false =>
            cases hh : Track.header track raw fragment with
            | panic => simp [Publisher.parse_atom, hfr, htk, hkv, hh]
            | error => simp [Publisher.parse_atom, hfr, htk, hkv, hh]
            | ok track' => simp [Publisher.parse_atom, hfr, htk, hkv, hh]
    | moov m raw =>
      by_cases hm : st.moov.isSome
      · simp [Publisher.parse_atom, hm]
      · have hsc := setup_catalog_effect settings st m raw
        cases hs : Publisher.setup settings st m raw with
        | mk r st0 =>
          rw [hs] at hsc
          simp only at hsc
          cases r with
          | ok =>
            simp only [Publisher.parse_atom, hm, hs, Bool.false_eq_true, if_false,
              ite_false]
            exact ⟨hsc.1, Or.inr (hsc.2.1 rfl)⟩
          | error e =>
            simp only [Publisher.parse_atom, hm, hs, Bool.false_eq_true, if_false,
              ite_false]
            exact ⟨hsc.1, Or.inl (hsc.2.2 (by simp))⟩
          | panic =>
            simp only [Publisher.parse_atom, hm, hs, Bool.false_eq_true, if_false,
              ite_false]
            exact ⟨hsc.1, Or.inl (hsc.2.2 (by simp))⟩
  exact ⟨rfl, hBC.1, hBC.2, hD⟩

/-- Witness for C6's amended theorem: the concrete successful setup of the
video fixture appends exactly one priority-0 group holding the whole
snapshot. -/
theorem catalog_delta_flag_and_republish_witness :
    ((Publisher.parse_atom (some sampleVideoSetting)
        { Publisher.new "ns" with ftyp := some [9] }
        (.moov sampleVideoMoov [3])).2).catalog_groups =
      ({ Publisher.new "ns" with ftyp := some [9] } : PubState).catalog_groups ++
        [⟨0, [((Publisher.parse_atom (some sampleVideoSetting)
          { Publisher.new "ns" with ftyp := some [9] }
          (.moov sampleVideoMoov [3])).2).catalog]⟩] :=
  (catalog_delta_flag_and_republish (some sampleVideoSetting)
      { Publisher.new "ns" with ftyp := some [9] }
      (.moov sampleVideoMoov [3]) "ns").2.2.2 sampleVideoMoov [3]
    ((Publisher.parse_atom (some sampleVideoSetting)
        { Publisher.new "ns" with ftyp := some [9] }
        (.moov sampleVideoMoov [3])).2)
    (by decide)
